import Mathlib

/-!
# Verification of the Saga orchestrator (`src/orquestador/saga_service.py`)

Shallow embedding of the purchase-saga orchestrator: the bounded-retry
controller `_ejecutar_con_retry`, the main step sequence `ejecutar_saga`
(catalog validation → create purchase → charge payment → reserve inventory),
and the compensation executor `_ejecutar_compensaciones` with its two undo
operations `_compensar_pago` and `_compensar_compra`.

External HTTP services are modelled by an environment (`Env`) that fixes the
result of every outbound call: each `_llamar_*` helper returns `none` on a
non-200 response or a transport error and the decoded JSON body on a 200
(this is exactly the `Optional[Dict]` contract of the Python helpers), so the
environment directly supplies that `Option Dict`.  Python truthiness of such
a result (`if resultado:` / `if not producto_info:`) is `truthy`: `None` and
the empty dict are falsy.  JSON objects are association lists of string keys
to string values; a missing-key subscript (`d['k']` raising `KeyError`)
is the source of "unexpected faults" caught by the orchestrator's outer
`try/except`.  Observable outbound side effects that the claims mention
(the inventory reservation request and the two compensation calls) are
collected in an event trace.
-/

set_option autoImplicit false

namespace SagaSpec

/-- A decoded JSON object body: association list from keys to (string) values.
`d['k']` is `lookup`; a `none` lookup at a subscript site models the
`KeyError` ("unexpected fault") path. -/
abbrev Dict := List (String × String)

/-- Python truthiness of an `Optional[Dict]`: `None` is falsy and so is an
empty dict (`{}`); any non-empty dict is truthy.  This is the test performed
by `if resultado:` in `_ejecutar_con_retry` and by `if not producto_info:` /
`if not reserva_result:` in `ejecutar_saga`. -/
def truthy : Option Dict → Bool
  | none => false
  | some d => !d.isEmpty

/-- `config.py`: `MAX_RETRIES = 3`. -/
def MAX_RETRIES : Nat := 3

/-- `config.py`: `RETRY_BASE_DELAY = 1` (seconds). -/
def RETRY_BASE_DELAY : Nat := 1

/-- `config.py`: `DELAY_ENTRE_PASOS = 2` (seconds). -/
def DELAY_ENTRE_PASOS : Nat := 2

/-- `config.py`: `MSG_SAGA_EXITOSA`. -/
def MSG_SAGA_EXITOSA : String := "Compra procesada exitosamente"

/-- `config.py`: `MSG_SAGA_FALLIDA`. -/
def MSG_SAGA_FALLIDA : String := "Error al procesar la compra - Compensaciones ejecutadas"

/-- Return value of `_ejecutar_con_retry`: the Python tuple
`(success, response, intentos_realizados)`, extended with the list of
backoff waits (`time.sleep(tiempo_espera)` durations, in seconds, in the
order they are performed) so the backoff schedule is part of the model. -/
structure RetryResult where
  success : Bool
  resultado : Option Dict
  intentos : Nat
  esperas : List Nat
deriving DecidableEq, Repr

/-- The loop body of `_ejecutar_con_retry`, `for intento in range(1, MAX_RETRIES + 1)`,
unrolled as recursion on the remaining iterations (`fuel`), entered with
`fuel = MAX_RETRIES`, `intento = 1`.  A truthy result returns
`(True, resultado, intento)` immediately; a falsy result with
`intento < MAX_RETRIES` sleeps `RETRY_BASE_DELAY * 2 ** (intento - 1)` and
continues; exhausting the loop returns `(False, None, MAX_RETRIES)`.
`op intento` is the environment-supplied result of the `intento`-th
invocation of `operacion_func(*args)`. -/
def retryDesde (op : Nat → Option Dict) : Nat → Nat → RetryResult
  | 0, _ => ⟨false, none, MAX_RETRIES, []⟩
  | fuel + 1, intento =>
    let resultado := op intento
    if truthy resultado then
      ⟨true, resultado, intento, []⟩
    else if intento < MAX_RETRIES then
      let tiempo_espera := RETRY_BASE_DELAY * 2 ^ (intento - 1)
      let r := retryDesde op fuel (intento + 1)
      ⟨r.success, r.resultado, r.intentos, tiempo_espera :: r.esperas⟩
    else
      ⟨false, none, MAX_RETRIES, []⟩

/-- `SagaOrchestrator._ejecutar_con_retry(operacion_nombre, operacion_func, *args)`:
bounded retry with exponential backoff over the global `MAX_RETRIES` and
`RETRY_BASE_DELAY`. -/
def ejecutar_con_retry (op : Nat → Option Dict) : RetryResult :=
  retryDesde op MAX_RETRIES 1

/-- Outcome of one compensation HTTP call as seen by `_compensar_pago` /
`_compensar_compra`: a 200 response, a non-200 response, or a raised
transport error (caught by the surrounding `try/except`). -/
inductive CompResult where
  | ok
  | fallo
  | excepcion
deriving DecidableEq, Repr

/-- The environment fixes what every outbound HTTP call of one saga execution
returns.  Forward calls are given as the `Option Dict` produced by the
corresponding `_llamar_*` / `_validar_producto_en_catalogo` helper (`none`
for non-200 or transport error, the JSON body for 200); the two retried
steps are indexed by the attempt number.  The two compensation endpoints'
outcomes are recorded separately so that their (ir)relevance to the saga
outcome can be stated. -/
structure Env where
  catalogo : Option Dict
  compras : Nat → Option Dict
  pagos : Nat → Option Dict
  inventario : Option Dict
  compensacionPago : CompResult
  compensacionCompra : CompResult

/-- `self.transacciones_exitosas`: the per-execution SagaProgress mapping
from step name to committed transaction identifier.  The three keys ever
written are `compra_id`, `pago_id` and `reserva_id`; `'k' in dict` is
`isSome` of the field. -/
structure Progreso where
  compra_id : Option String := none
  pago_id : Option String := none
  reserva_id : Option String := none
deriving DecidableEq, Repr

/-- Observable outbound side effects relevant to the specification: the
inventory reservation request (with the quantity it carries) and the two
compensation (undo) calls (with the identifier they target). -/
inductive Event where
  | llamadaInventario (producto : String) (cantidad : Nat)
  | compensacionPago (pago_id : String)
  | compensacionCompra (compra_id : String)
deriving DecidableEq, Repr

/-- Is this event a compensation (undo) call? -/
def Event.esCompensacion : Event → Bool
  | .compensacionPago _ => true
  | .compensacionCompra _ => true
  | .llamadaInventario _ _ => false

/-- Is this event a payment-refund call? -/
def Event.esCompensacionPago : Event → Bool
  | .compensacionPago _ => true
  | _ => false

/-- Is this event a purchase-cancel call? -/
def Event.esCompensacionCompra : Event → Bool
  | .compensacionCompra _ => true
  | _ => false

/-- `SagaOrchestrator._compensar_pago(pago_id)`: issues
`POST {pagos}/compensacion {pago_id}`.  A 200 response merely logs success;
a non-200 response does nothing; a raised transport error is caught by the
function's own `try/except` and logged.  In every case the call is issued
and nothing is returned, retried or escalated, so the emitted trace is the
same for all three outcomes. -/
def compensar_pago (pago_id : String) (resultado : CompResult) : List Event :=
  match resultado with
  | .ok => [Event.compensacionPago pago_id]
  | .fallo => [Event.compensacionPago pago_id]
  | .excepcion => [Event.compensacionPago pago_id]

/-- `SagaOrchestrator._compensar_compra(compra_id)`: issues
`POST {compras}/compensacion {compra_id}`; same best-effort behaviour as
`compensar_pago`. -/
def compensar_compra (compra_id : String) (resultado : CompResult) : List Event :=
  match resultado with
  | .ok => [Event.compensacionCompra compra_id]
  | .fallo => [Event.compensacionCompra compra_id]
  | .excepcion => [Event.compensacionCompra compra_id]

/-- `SagaOrchestrator._ejecutar_compensaciones(servicios)`: walks the given
service names in order; for `'pagos'` it refunds the payment only when
`'pago_id' in self.transacciones_exitosas`, for `'compras'` it cancels the
purchase only when `'compra_id'` is present; anything else (and any absent
identifier) performs no external call. -/
def ejecutar_compensaciones (env : Env) (servicios : List String) (prog : Progreso) :
    List Event :=
  match servicios with
  | [] => []
  | servicio :: resto =>
    (if servicio = "pagos" then
      match prog.pago_id with
      | some pid => compensar_pago pid env.compensacionPago
      | none => []
    else if servicio = "compras" then
      match prog.compra_id with
      | some cid => compensar_compra cid env.compensacionCompra
      | none => []
    else []) ++ ejecutar_compensaciones env resto prog

/-- The `datos` object of a successful saga response:
`{producto, compra_id, pago_id, reserva_id}`. -/
structure Datos where
  producto : Dict
  compra_id : String
  pago_id : String
  reserva_id : String
deriving DecidableEq, Repr

/-- The response dict built by `ejecutar_saga`.  The Python dicts carry
different key sets per branch; absent keys are `none`. -/
structure Respuesta where
  success : Bool
  mensaje : Option String := none
  error : Option String := none
  intentos_realizados : Option Nat := none
  datos : Option Datos := none
deriving DecidableEq, Repr

/-- What one invocation of `ejecutar_saga` produces: the `(respuesta, status)`
pair returned to the caller, the trace of observable outbound side effects,
and the final value of `self.transacciones_exitosas`. -/
structure SagaResult where
  respuesta : Respuesta
  status : Nat
  eventos : List Event
  progreso : Progreso
deriving DecidableEq, Repr

/-- `SagaOrchestrator._llamar_inventario(producto)`: issues
`POST {inventario}/transaccion {"producto": producto, "cantidad": 1}` — the
quantity is the literal `1` — and returns the body on 200, `None`
otherwise. -/
def llamar_inventario (env : Env) (producto : String) : Option Dict × Event :=
  (env.inventario, Event.llamadaInventario producto 1)

/-- The `except Exception` branch of `ejecutar_saga`: an unexpected fault
(here: a `KeyError` from subscripting a response dict) is caught, the
compensations `['pagos', 'compras']` are run against the current progress,
and `({"success": False, "error": "Error interno del servidor"}, 500)` is
returned.  `previos` are the outbound events already emitted before the
fault. -/
def errorInterno (env : Env) (previos : List Event) (prog : Progreso) : SagaResult :=
  ⟨{ success := false, error := some "Error interno del servidor" }, 500,
    previos ++ ejecutar_compensaciones env ["pagos", "compras"] prog, prog⟩

/-- PASO 4 of `ejecutar_saga`: reserve inventory in a single attempt, no
retry.  A falsy result runs compensations `['pagos', 'compras']` and returns
status 409; a truthy result records `reserva_id` (a missing key is the
`KeyError` fault path) and returns the success response with status 200. -/
def sagaPaso4 (env : Env) (producto_nombre : String) (producto : Dict)
    (compra_id pago_id : String) (prog2 : Progreso) : SagaResult :=
  let llamada := llamar_inventario env producto_nombre
  let reserva_result := llamada.1
  let evInv : List Event := [llamada.2]
  if ¬ truthy reserva_result then
    ⟨{ success := false,
       error := some ("Fallo al reservar inventario - " ++ MSG_SAGA_FALLIDA) }, 409,
      evInv ++ ejecutar_compensaciones env ["pagos", "compras"] prog2, prog2⟩
  else
    let reserva := reserva_result.getD []
    match reserva.lookup "reserva_id" with
    | none => errorInterno env evInv prog2
    | some reserva_id =>
      ⟨{ success := true, mensaje := some MSG_SAGA_EXITOSA,
         datos := some ⟨producto, compra_id, pago_id, reserva_id⟩ }, 200,
        evInv, { prog2 with reserva_id := some reserva_id }⟩

/-- PASO 3 of `ejecutar_saga`: charge the payment through the retry
controller.  On failure, compensate `['compras']` and return status 409;
on success, record `pago_id` (missing key ⇒ fault path) and go on to
PASO 4. -/
def sagaPaso3 (env : Env) (producto_nombre : String) (producto : Dict)
    (compra_id : String) (prog1 : Progreso) : SagaResult :=
  let r3 := ejecutar_con_retry env.pagos
  if ¬ r3.success then
    ⟨{ success := false,
       error := some ("Fallo al procesar pago después de " ++ toString r3.intentos
         ++ " intentos - " ++ MSG_SAGA_FALLIDA),
       intentos_realizados := some r3.intentos }, 409,
      ejecutar_compensaciones env ["compras"] prog1, prog1⟩
  else
    let pago_result := r3.resultado.getD []
    match pago_result.lookup "pago_id" with
    | none => errorInterno env [] prog1
    | some pago_id =>
      sagaPaso4 env producto_nombre producto compra_id pago_id
        { prog1 with pago_id := some pago_id }

/-- PASO 2 of `ejecutar_saga`: create the purchase through the retry
controller.  On failure, return status 409 with no compensation (nothing is
committed yet); on success, record `compra_id` (missing key ⇒ fault path)
and go on to PASO 3. -/
def sagaPaso2 (env : Env) (producto_nombre : String) (producto : Dict) : SagaResult :=
  let r2 := ejecutar_con_retry env.compras
  if ¬ r2.success then
    ⟨{ success := false,
       error := some ("Fallo al crear compra después de " ++ toString r2.intentos
         ++ " intentos"),
       intentos_realizados := some r2.intentos }, 409, [], {}⟩
  else
    let compra_result := r2.resultado.getD []
    match compra_result.lookup "compra_id" with
    | none => errorInterno env [] {}
    | some compra_id =>
      sagaPaso3 env producto_nombre producto compra_id { compra_id := some compra_id }

/-- `SagaOrchestrator.ejecutar_saga(usuario_id, producto_nombre, monto)`:
resets `self.transacciones_exitosas` to `{}`, then runs
catálogo → compras → pagos → inventario inside a `try/except`.  PASO 1
validates the product: a falsy catalog result returns status 404 with no
compensation; a truthy one is logged via `producto_info['nombre']` and
`producto_info['precio']`, whose `KeyError` on a missing key is the fault
path. -/
def ejecutar_saga (env : Env) (usuario_id producto_nombre : String) (monto : Rat) :
    SagaResult :=
  let prog0 : Progreso := {}
  let producto_info := env.catalogo
  if ¬ truthy producto_info then
    ⟨{ success := false,
       error := some ("Producto '" ++ producto_nombre ++ "' no existe en el catálogo") },
      404, [], prog0⟩
  else
    let producto := producto_info.getD []
    match producto.lookup "nombre", producto.lookup "precio" with
    | some _, some _ => sagaPaso2 env producto_nombre producto
    | _, _ => errorInterno env [] prog0

/-- `ejecutar_saga` as invoked on the long-lived orchestrator instance:
`transacciones_exitosas` is the value of the instance attribute before the
call; the method resets it to `{}` first (so the attribute passed in is
never read) and leaves the execution's own progress stored on the instance
when it returns.  Returns the `(respuesta, status)` pair together with the
attribute's value after the call. -/
def ejecutar_saga_instancia (_transacciones_exitosas : Progreso) (env : Env)
    (usuario_id producto_nombre : String) (monto : Rat) :
    (Respuesta × Nat) × Progreso :=
  let r := ejecutar_saga env usuario_id producto_nombre monto
  ((r.respuesta, r.status), r.progreso)

/-! ## Lemma layer: closed forms for the retry controller and each saga branch -/

/-- Closed form of the retry controller at `MAX_RETRIES = 3`,
`RETRY_BASE_DELAY = 1`: first truthy attempt wins; three falsy attempts
exhaust the loop, with backoff waits of 1s then 2s. -/
theorem ejecutar_con_retry_eq (op : Nat → Option Dict) :
    ejecutar_con_retry op =
      if truthy (op 1) then ⟨true, op 1, 1, []⟩
      else if truthy (op 2) then ⟨true, op 2, 2, [1]⟩
      else if truthy (op 3) then ⟨true, op 3, 3, [1, 2]⟩
      else ⟨false, none, 3, [1, 2]⟩ := by
  cases h1 : truthy (op 1) <;> cases h2 : truthy (op 2) <;> cases h3 : truthy (op 3) <;>
    simp [ejecutar_con_retry, retryDesde, MAX_RETRIES, RETRY_BASE_DELAY, h1, h2, h3]

@[simp]
theorem compensar_pago_eq (pago_id : String) (r : CompResult) :
    compensar_pago pago_id r = [Event.compensacionPago pago_id] := by
  cases r <;> rfl

@[simp]
theorem compensar_compra_eq (compra_id : String) (r : CompResult) :
    compensar_compra compra_id r = [Event.compensacionCompra compra_id] := by
  cases r <;> rfl

/-- Evaluating the compensation executor on `['pagos', 'compras']`. -/
theorem compensaciones_pagos_compras (env : Env) (prog : Progreso) :
    ejecutar_compensaciones env ["pagos", "compras"] prog =
      (match prog.pago_id with
        | some pid => [Event.compensacionPago pid]
        | none => []) ++
      (match prog.compra_id with
        | some cid => [Event.compensacionCompra cid]
        | none => []) := by
  cases hp : prog.pago_id <;> cases hc : prog.compra_id <;>
    simp [ejecutar_compensaciones, hp, hc]

/-- Evaluating the compensation executor on `['compras']`. -/
theorem compensaciones_compras (env : Env) (prog : Progreso) :
    ejecutar_compensaciones env ["compras"] prog =
      (match prog.compra_id with
        | some cid => [Event.compensacionCompra cid]
        | none => []) := by
  cases hc : prog.compra_id <;> simp [ejecutar_compensaciones, hc]

/-- The compensation executor never refunds a payment whose identifier is
absent from the progress mapping. -/
theorem compensaciones_sin_pago (env : Env) (servicios : List String) (prog : Progreso)
    (h : prog.pago_id = none) :
    ∀ e ∈ ejecutar_compensaciones env servicios prog, e.esCompensacionPago = false := by
  induction servicios with
  | nil => simp [ejecutar_compensaciones]
  | cons s resto ih =>
    intro e he
    simp only [ejecutar_compensaciones, List.mem_append] at he
    rcases he with he | he
    · by_cases hs1 : s = "pagos"
      · simp [hs1, h] at he
      · by_cases hs2 : s = "compras"
        · cases hc : prog.compra_id with
          | none => simp [hs1, hs2, hc] at he
          | some cid =>
            simp [hs1, hs2, hc] at he
            subst he; rfl
        · simp [hs1, hs2] at he
    · exact ih e he

/-- The compensation executor never cancels a purchase whose identifier is
absent from the progress mapping. -/
theorem compensaciones_sin_compra (env : Env) (servicios : List String) (prog : Progreso)
    (h : prog.compra_id = none) :
    ∀ e ∈ ejecutar_compensaciones env servicios prog, e.esCompensacionCompra = false := by
  induction servicios with
  | nil => simp [ejecutar_compensaciones]
  | cons s resto ih =>
    intro e he
    simp only [ejecutar_compensaciones, List.mem_append] at he
    rcases he with he | he
    · by_cases hs1 : s = "pagos"
      · cases hp : prog.pago_id with
        | none => simp [hs1, hp] at he
        | some pid =>
          simp [hs1, hp] at he
          subst he; rfl
      · by_cases hs2 : s = "compras"
        · simp [hs1, hs2, h] at he
        · simp [hs1, hs2] at he
    · exact ih e he

/-- Every event the compensation executor emits is a compensation call. -/
theorem compensaciones_solo_compensan (env : Env) (servicios : List String) (prog : Progreso) :
    ∀ e ∈ ejecutar_compensaciones env servicios prog, e.esCompensacion = true := by
  induction servicios with
  | nil => simp [ejecutar_compensaciones]
  | cons s resto ih =>
    intro e he
    simp only [ejecutar_compensaciones, List.mem_append] at he
    rcases he with he | he
    · by_cases hs1 : s = "pagos"
      · cases hp : prog.pago_id with
        | none => simp [hs1, hp] at he
        | some pid =>
          simp [hs1, hp] at he
          subst he; rfl
      · by_cases hs2 : s = "compras"
        · cases hc : prog.compra_id with
          | none => simp [hs1, hs2, hc] at he
          | some cid =>
            simp [hs1, hs2, hc] at he
            subst he; rfl
        · simp [hs1, hs2] at he
    · exact ih e he

/-- PASO 4, inventory reservation fails (falsy result). -/
theorem sagaPaso4_falla (env : Env) (p : String) (producto : Dict)
    (cid pid : String) (prog2 : Progreso) (h : truthy env.inventario = false) :
    sagaPaso4 env p producto cid pid prog2 =
      ⟨{ success := false,
         error := some ("Fallo al reservar inventario - " ++ MSG_SAGA_FALLIDA) }, 409,
        Event.llamadaInventario p 1 :: ejecutar_compensaciones env ["pagos", "compras"] prog2,
        prog2⟩ := by
  simp [sagaPaso4, llamar_inventario, h]

/-- PASO 4, the reservation succeeds but the body has no `reserva_id` key:
`KeyError` fault path. -/
theorem sagaPaso4_fallaClave (env : Env) (p : String) (producto : Dict)
    (cid pid : String) (prog2 : Progreso) (h : truthy env.inventario = true)
    (hk : (env.inventario.getD []).lookup "reserva_id" = none) :
    sagaPaso4 env p producto cid pid prog2 =
      errorInterno env [Event.llamadaInventario p 1] prog2 := by
  simp [sagaPaso4, llamar_inventario, h, hk]

/-- PASO 4, the reservation succeeds: saga done, status 200. -/
theorem sagaPaso4_ok (env : Env) (p : String) (producto : Dict)
    (cid pid rid : String) (prog2 : Progreso) (h : truthy env.inventario = true)
    (hk : (env.inventario.getD []).lookup "reserva_id" = some rid) :
    sagaPaso4 env p producto cid pid prog2 =
      ⟨{ success := true, mensaje := some MSG_SAGA_EXITOSA,
         datos := some ⟨producto, cid, pid, rid⟩ }, 200,
        [Event.llamadaInventario p 1], { prog2 with reserva_id := some rid }⟩ := by
  simp [sagaPaso4, llamar_inventario, h, hk]

/-- PASO 3, the payment fails after all retries: compensate `['compras']`. -/
theorem sagaPaso3_falla (env : Env) (p : String) (producto : Dict)
    (cid : String) (prog1 : Progreso)
    (h : (ejecutar_con_retry env.pagos).success = false) :
    sagaPaso3 env p producto cid prog1 =
      ⟨{ success := false,
         error := some ("Fallo al procesar pago después de "
           ++ toString (ejecutar_con_retry env.pagos).intentos
           ++ " intentos - " ++ MSG_SAGA_FALLIDA),
         intentos_realizados := some (ejecutar_con_retry env.pagos).intentos }, 409,
        ejecutar_compensaciones env ["compras"] prog1, prog1⟩ := by
  simp [sagaPaso3, h]

/-- PASO 3, the payment succeeds but the body has no `pago_id` key:
`KeyError` fault path with only the purchase committed. -/
theorem sagaPaso3_fallaClave (env : Env) (p : String) (producto : Dict)
    (cid : String) (prog1 : Progreso)
    (h : (ejecutar_con_retry env.pagos).success = true)
    (hk : ((ejecutar_con_retry env.pagos).resultado.getD []).lookup "pago_id" = none) :
    sagaPaso3 env p producto cid prog1 = errorInterno env [] prog1 := by
  simp [sagaPaso3, h, hk]

/-- PASO 3, the payment succeeds: record `pago_id` and reserve inventory. -/
theorem sagaPaso3_ok (env : Env) (p : String) (producto : Dict)
    (cid pid : String) (prog1 : Progreso)
    (h : (ejecutar_con_retry env.pagos).success = true)
    (hk : ((ejecutar_con_retry env.pagos).resultado.getD []).lookup "pago_id" = some pid) :
    sagaPaso3 env p producto cid prog1 =
      sagaPaso4 env p producto cid pid { prog1 with pago_id := some pid } := by
  simp [sagaPaso3, h, hk]

/-- PASO 2, the purchase fails after all retries: status 409, no
compensation. -/
theorem sagaPaso2_falla (env : Env) (p : String) (producto : Dict)
    (h : (ejecutar_con_retry env.compras).success = false) :
    sagaPaso2 env p producto =
      ⟨{ success := false,
         error := some ("Fallo al crear compra después de "
           ++ toString (ejecutar_con_retry env.compras).intentos ++ " intentos"),
         intentos_realizados := some (ejecutar_con_retry env.compras).intentos }, 409,
        [], {}⟩ := by
  simp [sagaPaso2, h]

/-- PASO 2, the purchase succeeds but the body has no `compra_id` key:
`KeyError` fault path with nothing committed. -/
theorem sagaPaso2_fallaClave (env : Env) (p : String) (producto : Dict)
    (h : (ejecutar_con_retry env.compras).success = true)
    (hk : ((ejecutar_con_retry env.compras).resultado.getD []).lookup "compra_id" = none) :
    sagaPaso2 env p producto = errorInterno env [] {} := by
  simp [sagaPaso2, h, hk]

/-- PASO 2, the purchase succeeds: record `compra_id` and process payment. -/
theorem sagaPaso2_ok (env : Env) (p : String) (producto : Dict) (cid : String)
    (h : (ejecutar_con_retry env.compras).success = true)
    (hk : ((ejecutar_con_retry env.compras).resultado.getD []).lookup "compra_id" = some cid) :
    sagaPaso2 env p producto =
      sagaPaso3 env p producto cid { compra_id := some cid } := by
  simp [sagaPaso2, h, hk]

/-- PASO 1, the catalog lookup yields a falsy result: status 404, no
compensation, no outbound event. -/
theorem ejecutar_saga_404 (env : Env) (u p : String) (m : Rat)
    (h : truthy env.catalogo = false) :
    ejecutar_saga env u p m =
      ⟨{ success := false,
         error := some ("Producto '" ++ p ++ "' no existe en el catálogo") },
        404, [], {}⟩ := by
  simp [ejecutar_saga, h]

/-- PASO 1, the catalog result is truthy but lacks `nombre` or `precio`:
`KeyError` fault path with nothing committed. -/
theorem ejecutar_saga_fallaClave (env : Env) (u p : String) (m : Rat)
    (h : truthy env.catalogo = true)
    (hk : (env.catalogo.getD []).lookup "nombre" = none ∨
          (env.catalogo.getD []).lookup "precio" = none) :
    ejecutar_saga env u p m = errorInterno env [] {} := by
  cases hn : (env.catalogo.getD []).lookup "nombre" with
  | none =>
    cases hpr : (env.catalogo.getD []).lookup "precio" <;>
      simp [ejecutar_saga, h, hn, hpr]
  | some n =>
    cases hpr : (env.catalogo.getD []).lookup "precio" with
    | none => simp [ejecutar_saga, h, hn, hpr]
    | some pr => simp [hn, hpr] at hk

/-- PASO 1, the product is validated: go on to PASO 2 with the catalog
body. -/
theorem ejecutar_saga_ok (env : Env) (u p : String) (m : Rat) (n pr : String)
    (h : truthy env.catalogo = true)
    (hn : (env.catalogo.getD []).lookup "nombre" = some n)
    (hp : (env.catalogo.getD []).lookup "precio" = some pr) :
    ejecutar_saga env u p m = sagaPaso2 env p (env.catalogo.getD []) := by
  simp [ejecutar_saga, h, hn, hp]

/-- The catalog step validated the product: truthy body carrying both keys
that `ejecutar_saga` subscripts (`nombre`, `precio`). -/
def pasoCatalogoOk (env : Env) : Prop :=
  truthy env.catalogo = true ∧
    (∃ n, (env.catalogo.getD []).lookup "nombre" = some n) ∧
    (∃ pr, (env.catalogo.getD []).lookup "precio" = some pr)

/-- The `compra_id` subscripted from the purchase step's payload. -/
def compraId (env : Env) : Option String :=
  ((ejecutar_con_retry env.compras).resultado.getD []).lookup "compra_id"

/-- The `pago_id` subscripted from the payment step's payload. -/
def pagoId (env : Env) : Option String :=
  ((ejecutar_con_retry env.pagos).resultado.getD []).lookup "pago_id"

/-- The `reserva_id` subscripted from the inventory step's payload. -/
def reservaId (env : Env) : Option String :=
  (env.inventario.getD []).lookup "reserva_id"

/-- Exhaustive case analysis of one saga execution: every run lands in
exactly one of the nine reachable branches, and in each the full result
(response, status, event trace, final progress) is given in closed form. -/
theorem ejecutar_saga_casos (env : Env) (u p : String) (m : Rat) :
    (truthy env.catalogo = false ∧
      ejecutar_saga env u p m =
        ⟨{ success := false,
           error := some ("Producto '" ++ p ++ "' no existe en el catálogo") },
          404, [], {}⟩) ∨
    (truthy env.catalogo = true ∧
      ((env.catalogo.getD []).lookup "nombre" = none ∨
        (env.catalogo.getD []).lookup "precio" = none) ∧
      ejecutar_saga env u p m = errorInterno env [] {}) ∨
    (pasoCatalogoOk env ∧ (ejecutar_con_retry env.compras).success = false ∧
      ejecutar_saga env u p m =
        ⟨{ success := false,
           error := some ("Fallo al crear compra después de "
             ++ toString (ejecutar_con_retry env.compras).intentos ++ " intentos"),
           intentos_realizados := some (ejecutar_con_retry env.compras).intentos },
          409, [], {}⟩) ∨
    (pasoCatalogoOk env ∧ (ejecutar_con_retry env.compras).success = true ∧
      compraId env = none ∧
      ejecutar_saga env u p m = errorInterno env [] {}) ∨
    (∃ cid, pasoCatalogoOk env ∧ (ejecutar_con_retry env.compras).success = true ∧
      compraId env = some cid ∧ (ejecutar_con_retry env.pagos).success = false ∧
      ejecutar_saga env u p m =
        ⟨{ success := false,
           error := some ("Fallo al procesar pago después de "
             ++ toString (ejecutar_con_retry env.pagos).intentos
             ++ " intentos - " ++ MSG_SAGA_FALLIDA),
           intentos_realizados := some (ejecutar_con_retry env.pagos).intentos },
          409, [Event.compensacionCompra cid], ⟨some cid, none, none⟩⟩) ∨
    (∃ cid, pasoCatalogoOk env ∧ (ejecutar_con_retry env.compras).success = true ∧
      compraId env = some cid ∧ (ejecutar_con_retry env.pagos).success = true ∧
      pagoId env = none ∧
      ejecutar_saga env u p m = errorInterno env [] ⟨some cid, none, none⟩) ∨
    (∃ cid pid, pasoCatalogoOk env ∧ (ejecutar_con_retry env.compras).success = true ∧
      compraId env = some cid ∧ (ejecutar_con_retry env.pagos).success = true ∧
      pagoId env = some pid ∧ truthy env.inventario = false ∧
      ejecutar_saga env u p m =
        ⟨{ success := false,
           error := some ("Fallo al reservar inventario - " ++ MSG_SAGA_FALLIDA) }, 409,
          [Event.llamadaInventario p 1, Event.compensacionPago pid,
            Event.compensacionCompra cid], ⟨some cid, some pid, none⟩⟩) ∨
    (∃ cid pid, pasoCatalogoOk env ∧ (ejecutar_con_retry env.compras).success = true ∧
      compraId env = some cid ∧ (ejecutar_con_retry env.pagos).success = true ∧
      pagoId env = some pid ∧ truthy env.inventario = true ∧ reservaId env = none ∧
      ejecutar_saga env u p m =
        errorInterno env [Event.llamadaInventario p 1] ⟨some cid, some pid, none⟩) ∨
    (∃ cid pid rid, pasoCatalogoOk env ∧ (ejecutar_con_retry env.compras).success = true ∧
      compraId env = some cid ∧ (ejecutar_con_retry env.pagos).success = true ∧
      pagoId env = some pid ∧ truthy env.inventario = true ∧ reservaId env = some rid ∧
      ejecutar_saga env u p m =
        ⟨{ success := true, mensaje := some MSG_SAGA_EXITOSA,
           datos := some ⟨env.catalogo.getD [], cid, pid, rid⟩ }, 200,
          [Event.llamadaInventario p 1], ⟨some cid, some pid, some rid⟩⟩) := by
  by_cases h1 : truthy env.catalogo = true
  · cases hn : (env.catalogo.getD []).lookup "nombre" with
    | none =>
      exact Or.inr (Or.inl ⟨h1, Or.inl rfl, ejecutar_saga_fallaClave env u p m h1 (Or.inl hn)⟩)
    | some n =>
      cases hpr : (env.catalogo.getD []).lookup "precio" with
      | none =>
        exact Or.inr (Or.inl ⟨h1, Or.inr rfl, ejecutar_saga_fallaClave env u p m h1 (Or.inr hpr)⟩)
      | some pr =>
        have hcat : pasoCatalogoOk env := ⟨h1, ⟨n, hn⟩, ⟨pr, hpr⟩⟩
        have hsaga := ejecutar_saga_ok env u p m n pr h1 hn hpr
        by_cases h2 : (ejecutar_con_retry env.compras).success = true
        · cases hcid : compraId env with
          | none =>
            refine Or.inr (Or.inr (Or.inr (Or.inl ⟨hcat, h2, rfl, ?_⟩)))
            rw [hsaga, sagaPaso2_fallaClave env p _ h2 hcid]
          | some cid =>
            have hsaga2 := sagaPaso2_ok env p (env.catalogo.getD []) cid h2 hcid
            by_cases h3 : (ejecutar_con_retry env.pagos).success = true
            · cases hpid : pagoId env with
              | none =>
                refine Or.inr (Or.inr (Or.inr (Or.inr (Or.inr (Or.inl
                  ⟨cid, hcat, h2, rfl, h3, rfl, ?_⟩)))))
                rw [hsaga, hsaga2, sagaPaso3_fallaClave env p _ cid ⟨some cid, none, none⟩ h3 hpid]
              | some pid =>
                have hsaga3 := sagaPaso3_ok env p (env.catalogo.getD []) cid pid ⟨some cid, none, none⟩ h3 hpid
                by_cases h4 : truthy env.inventario = true
                · cases hrid : reservaId env with
                  | none =>
                    refine Or.inr (Or.inr (Or.inr (Or.inr (Or.inr (Or.inr (Or.inr (Or.inl
                      ⟨cid, pid, hcat, h2, rfl, h3, rfl, h4, rfl, ?_⟩)))))))
                    rw [hsaga, hsaga2, hsaga3, sagaPaso4_fallaClave env p _ cid pid ⟨some cid, some pid, none⟩ h4 hrid]
                  | some rid =>
                    refine Or.inr (Or.inr (Or.inr (Or.inr (Or.inr (Or.inr (Or.inr (Or.inr
                      ⟨cid, pid, rid, hcat, h2, rfl, h3, rfl, h4, rfl, ?_⟩)))))))
                    rw [hsaga, hsaga2, hsaga3, sagaPaso4_ok env p _ cid pid rid ⟨some cid, some pid, none⟩ h4 hrid]
                · have h4' : truthy env.inventario = false := by
                    cases h : truthy env.inventario
                    · rfl
                    · exact absurd h h4
                  refine Or.inr (Or.inr (Or.inr (Or.inr (Or.inr (Or.inr (Or.inl
                    ⟨cid, pid, hcat, h2, rfl, h3, rfl, h4', ?_⟩))))))
                  rw [hsaga, hsaga2, hsaga3, sagaPaso4_falla env p _ cid pid ⟨some cid, some pid, none⟩ h4',
                    compensaciones_pagos_compras]
                  rfl
            · have h3' : (ejecutar_con_retry env.pagos).success = false := by
                cases h : (ejecutar_con_retry env.pagos).success
                · rfl
                · exact absurd h h3
              refine Or.inr (Or.inr (Or.inr (Or.inr (Or.inl ⟨cid, hcat, h2, rfl, h3', ?_⟩))))
              rw [hsaga, hsaga2, sagaPaso3_falla env p _ cid ⟨some cid, none, none⟩ h3', compensaciones_compras]
        · have h2' : (ejecutar_con_retry env.compras).success = false := by
            cases h : (ejecutar_con_retry env.compras).success
            · rfl
            · exact absurd h h2
          refine Or.inr (Or.inr (Or.inl ⟨hcat, h2', ?_⟩))
          rw [hsaga, sagaPaso2_falla env p _ h2']
  · have h1' : truthy env.catalogo = false := by
      cases h : truthy env.catalogo
      · rfl
      · exact absurd h h1
    exact Or.inl ⟨h1', ejecutar_saga_404 env u p m h1'⟩

/-- The attempt count reported by the retry controller is always between 1
and `MAX_RETRIES`. -/
theorem ejecutar_con_retry_intentos (op : Nat → Option Dict) :
    1 ≤ (ejecutar_con_retry op).intentos ∧
      (ejecutar_con_retry op).intentos ≤ MAX_RETRIES := by
  rw [ejecutar_con_retry_eq]
  split_ifs <;> simp [MAX_RETRIES]

/-- A successful retry result comes from a truthy attempt: `succeeded = true`
is reported only when some attempt `k ∈ 1..MAX_RETRIES` yielded a truthy
payload, and the returned payload and attempt count are that attempt's. -/
theorem ejecutar_con_retry_success (op : Nat → Option Dict)
    (h : (ejecutar_con_retry op).success = true) :
    ∃ k, 1 ≤ k ∧ k ≤ MAX_RETRIES ∧ truthy (op k) = true ∧
      (ejecutar_con_retry op).resultado = op k ∧
      (ejecutar_con_retry op).intentos = k := by
  cases h1 : truthy (op 1) with
  | true =>
    exact ⟨1, le_refl 1, by norm_num [MAX_RETRIES], h1,
      by simp [ejecutar_con_retry_eq, h1], by simp [ejecutar_con_retry_eq, h1]⟩
  | false =>
    cases h2 : truthy (op 2) with
    | true =>
      exact ⟨2, by norm_num, by norm_num [MAX_RETRIES], h2,
        by simp [ejecutar_con_retry_eq, h1, h2], by simp [ejecutar_con_retry_eq, h1, h2]⟩
    | false =>
      cases h3 : truthy (op 3) with
      | true =>
        exact ⟨3, by norm_num, by norm_num [MAX_RETRIES], h3,
          by simp [ejecutar_con_retry_eq, h1, h2, h3],
          by simp [ejecutar_con_retry_eq, h1, h2, h3]⟩
      | false =>
        rw [ejecutar_con_retry_eq] at h
        simp [h1, h2, h3] at h

/-! ## Claim theorems -/

/-- **C2.** The retry controller indexes attempts `1..MAX_RETRIES`; a
Success at attempt `k` returns immediately with `succeeded = true`, that
attempt's payload and `attemptsUsed = k`, having waited
`RETRY_BASE_DELAY * 2^(attempt-1)` after each earlier failed attempt;
`MAX_RETRIES` failures return `succeeded = false`, no payload and
`attemptsUsed = MAX_RETRIES`, with waits of 1s then 2s.  In particular an
operation failing on attempts 1 and 2 and succeeding on attempt 3 yields
`succeeded = true`, `attemptsUsed = 3` and waits `[1, 2]`. -/
theorem retry_controller_correcto (op : Nat → Option Dict) :
    (∀ k, 1 ≤ k → k ≤ MAX_RETRIES →
      (∀ i, 1 ≤ i → i < k → truthy (op i) = false) → truthy (op k) = true →
      ejecutar_con_retry op =
        ⟨true, op k, k, (List.range (k - 1)).map fun i => RETRY_BASE_DELAY * 2 ^ i⟩) ∧
    ((∀ i, 1 ≤ i → i ≤ MAX_RETRIES → truthy (op i) = false) →
      ejecutar_con_retry op = ⟨false, none, MAX_RETRIES, [1, 2]⟩) ∧
    (truthy (op 1) = false → truthy (op 2) = false → truthy (op 3) = true →
      ejecutar_con_retry op = ⟨true, op 3, 3, [1, 2]⟩) := by
  refine ⟨?_, ?_, ?_⟩
  · intro k hk1 hk3 hprev hk
    have hk3' : k ≤ 3 := hk3
    interval_cases k
    · simp [ejecutar_con_retry_eq, hk]
    · have h1 := hprev 1 (by norm_num) (by norm_num)
      simp [ejecutar_con_retry_eq, h1, hk, List.range_succ, RETRY_BASE_DELAY]
    · have h1 := hprev 1 (by norm_num) (by norm_num)
      have h2 := hprev 2 (by norm_num) (by norm_num)
      simp [ejecutar_con_retry_eq, h1, h2, hk, List.range_succ, RETRY_BASE_DELAY]
  · intro h
    have h1 := h 1 (by norm_num) (by norm_num [MAX_RETRIES])
    have h2 := h 2 (by norm_num) (by norm_num [MAX_RETRIES])
    have h3 := h 3 (by norm_num) (by norm_num [MAX_RETRIES])
    simp [ejecutar_con_retry_eq, h1, h2, h3, MAX_RETRIES]
  · intro h1 h2 h3
    simp [ejecutar_con_retry_eq, h1, h2, h3]

/-- An operation that fails on the first two attempts and succeeds on the
third, as in the spec's retry example. -/
def opTercerIntento : Nat → Option Dict :=
  fun i => if i = 3 then some [("pago_id", "p1")] else none

/-- Witness for `retry_controller_correcto` at `opTercerIntento`. -/
theorem retry_controller_correcto_witness :
    truthy (opTercerIntento 1) = false ∧ truthy (opTercerIntento 2) = false ∧
      truthy (opTercerIntento 3) = true ∧
      ejecutar_con_retry opTercerIntento = ⟨true, opTercerIntento 3, 3, [1, 2]⟩ :=
  ⟨by decide, by decide, by decide,
    (retry_controller_correcto opTercerIntento).2.2 (by decide) (by decide) (by decide)⟩

/-- **C9.** Any falsy step result — including a 200 response whose payload
is the empty map — is treated by the retry controller exactly like a
Failure: it is retried with backoff, and `MAX_RETRIES` such results yield
`succeeded = false` with no payload. -/
theorem resultado_falsy_es_fallo (op : Nat → Option Dict) :
    truthy (some ([] : Dict)) = false ∧
    ((∀ i, 1 ≤ i → i ≤ MAX_RETRIES → op i = none ∨ op i = some []) →
      ejecutar_con_retry op = ⟨false, none, MAX_RETRIES, [1, 2]⟩) := by
  constructor
  · rfl
  · intro h
    have t : ∀ i, 1 ≤ i → i ≤ MAX_RETRIES → truthy (op i) = false := by
      intro i hi1 hi3
      rcases h i hi1 hi3 with hi | hi <;> rw [hi] <;> rfl
    have h1 := t 1 (by norm_num) (by norm_num [MAX_RETRIES])
    have h2 := t 2 (by norm_num) (by norm_num [MAX_RETRIES])
    have h3 := t 3 (by norm_num) (by norm_num [MAX_RETRIES])
    simp [ejecutar_con_retry_eq, h1, h2, h3, MAX_RETRIES]

/-- An operation whose every invocation returns a 200 response with an
empty-map payload. -/
def opCuerpoVacio : Nat → Option Dict := fun _ => some []

/-- Witness for `resultado_falsy_es_fallo` at `opCuerpoVacio`. -/
theorem resultado_falsy_es_fallo_witness :
    ejecutar_con_retry opCuerpoVacio = ⟨false, none, MAX_RETRIES, [1, 2]⟩ :=
  (resultado_falsy_es_fallo opCuerpoVacio).2 (fun _ _ _ => Or.inr rfl)

/-- **C6.** Every saga execution terminates in exactly one of the two
terminal classifications — SUCCEEDED (`success = true`, status 200) or
FAILED (`success = false`, status ≠ 200) — and the only loop, the retry
loop, is bounded by `MAX_RETRIES`. -/
theorem saga_termina_en_estado_unico (env : Env) (u p : String) (m : Rat)
    (op : Nat → Option Dict) :
    (((ejecutar_saga env u p m).respuesta.success = true ∧
        (ejecutar_saga env u p m).status = 200) ∨
      ((ejecutar_saga env u p m).respuesta.success = false ∧
        (ejecutar_saga env u p m).status ≠ 200)) ∧
    1 ≤ (ejecutar_con_retry op).intentos ∧
      (ejecutar_con_retry op).intentos ≤ MAX_RETRIES := by
  refine ⟨?_, ejecutar_con_retry_intentos op⟩
  rcases ejecutar_saga_casos env u p m with
    ⟨_, hr⟩ | ⟨_, _, hr⟩ | ⟨_, _, hr⟩ | ⟨_, _, _, hr⟩ | ⟨cid, _, _, _, _, hr⟩ |
    ⟨cid, _, _, _, _, _, hr⟩ | ⟨cid, pid, _, _, _, _, _, _, hr⟩ |
    ⟨cid, pid, _, _, _, _, _, _, _, hr⟩ | ⟨cid, pid, rid, _, _, _, _, _, _, _, hr⟩ <;>
    rw [hr] <;> simp [errorInterno]

/-- The compensation executor's trace does not depend on the outcomes of the
compensation calls themselves (they are swallowed). -/
theorem ejecutar_compensaciones_indep (env env' : Env) (servicios : List String)
    (prog : Progreso) :
    ejecutar_compensaciones env servicios prog =
      ejecutar_compensaciones env' servicios prog := by
  induction servicios with
  | nil => rfl
  | cons s resto ih => simp [ejecutar_compensaciones, ih]

/-- The saga result depends on the environment only through the forward
calls: any two environments agreeing on catalog, purchase, payment and
inventory responses produce identical results. -/
theorem ejecutar_saga_indep_comp (env env' : Env) (u p : String) (m : Rat)
    (hc : env.catalogo = env'.catalogo) (hco : env.compras = env'.compras)
    (hpa : env.pagos = env'.pagos) (hin : env.inventario = env'.inventario) :
    ejecutar_saga env u p m = ejecutar_saga env' u p m := by
  simp only [ejecutar_saga, sagaPaso2, sagaPaso3, sagaPaso4, errorInterno,
    llamar_inventario, hc, hco, hpa, hin, ejecutar_compensaciones_indep env env']

/-- **C5.** Compensation is best-effort: whether the undo calls return 200,
return non-200 or raise, the saga's response, status code, event trace and
final progress are identical — compensation results never alter the
already-decided outcome. -/
theorem compensacion_mejor_esfuerzo (env : Env) (u p : String) (m : Rat)
    (c1 c2 c1' c2' : CompResult) :
    ejecutar_saga { env with compensacionPago := c1, compensacionCompra := c2 } u p m =
      ejecutar_saga { env with compensacionPago := c1', compensacionCompra := c2' } u p m :=
  ejecutar_saga_indep_comp _ _ u p m rfl rfl rfl rfl

/-- No inventory-reservation event ever appears among the compensation
executor's events. -/
theorem llamadaInventario_no_en_comp (env : Env) (servicios : List String)
    (prog : Progreso) (prod : String) (q : Nat) :
    Event.llamadaInventario prod q ∉ ejecutar_compensaciones env servicios prog := by
  intro hmem
  have h := compensaciones_solo_compensan env servicios prog _ hmem
  simp [Event.esCompensacion] at h

/-- Every outbound event of a saga execution is either the single inventory
reservation request (for the requested product, quantity 1) or a
compensation call. -/
theorem eventos_forma (env : Env) (u p : String) (m : Rat) :
    ∀ e ∈ (ejecutar_saga env u p m).eventos,
      e = Event.llamadaInventario p 1 ∨ e.esCompensacion = true := by
  intro e he
  rcases ejecutar_saga_casos env u p m with
    ⟨_, hr⟩ | ⟨_, _, hr⟩ | ⟨_, _, hr⟩ | ⟨_, _, _, hr⟩ | ⟨cid, _, _, _, _, hr⟩ |
    ⟨cid, _, _, _, _, _, hr⟩ | ⟨cid, pid, _, _, _, _, _, _, hr⟩ |
    ⟨cid, pid, _, _, _, _, _, _, _, hr⟩ | ⟨cid, pid, rid, _, _, _, _, _, _, _, hr⟩ <;>
    rw [hr] at he
  · simp at he
  · simp only [errorInterno, List.nil_append] at he
    exact Or.inr (compensaciones_solo_compensan env _ _ e he)
  · simp at he
  · simp only [errorInterno, List.nil_append] at he
    exact Or.inr (compensaciones_solo_compensan env _ _ e he)
  · simp only [List.mem_singleton] at he
    subst he
    exact Or.inr rfl
  · simp only [errorInterno, List.nil_append] at he
    exact Or.inr (compensaciones_solo_compensan env _ _ e he)
  · simp only [List.mem_cons, List.not_mem_nil, or_false] at he
    rcases he with he | he | he
    · exact Or.inl he
    · subst he
      exact Or.inr rfl
    · subst he
      exact Or.inr rfl
  · simp only [errorInterno, List.cons_append, List.nil_append, List.mem_cons] at he
    rcases he with he | he
    · exact Or.inl he
    · exact Or.inr (compensaciones_solo_compensan env _ _ e he)
  · simp only [List.mem_singleton] at he
    exact Or.inl he

/-- **C10.** Every inventory reservation request issued during any saga
execution names the requested product and carries quantity exactly 1,
whatever the user, product or amount supplied; and a fully successful
execution issues exactly that one reservation request. -/
theorem inventario_cantidad_uno (env : Env) (u p : String) (m : Rat) :
    (∀ prod q, Event.llamadaInventario prod q ∈ (ejecutar_saga env u p m).eventos →
      prod = p ∧ q = 1) ∧
    (llamar_inventario env p).2 = Event.llamadaInventario p 1 := by
  refine ⟨?_, rfl⟩
  intro prod q hmem
  rcases eventos_forma env u p m _ hmem with h | h
  · injection h with h1 h2
    exact ⟨h1, h2⟩
  · simp [Event.esCompensacion] at h

/-- A concrete environment in which every step succeeds on the first
attempt. -/
def envExito : Env :=
  { catalogo := some [("nombre", "Widget"), ("precio", "19.99")]
    compras := fun _ => some [("compra_id", "c1")]
    pagos := fun _ => some [("pago_id", "p1")]
    inventario := some [("reserva_id", "r1")]
    compensacionPago := .ok
    compensacionCompra := .ok }

/-- `envExito` with a failing inventory reservation. -/
def envInventarioFalla : Env := { envExito with inventario := none }

/-- `envExito` with a product absent from the catalog. -/
def envSinProducto : Env := { envExito with catalogo := none }

/-- `envExito` with a truthy inventory response that lacks the
`reserva_id` key. -/
def envReservaSinClave : Env := { envExito with inventario := some [("x", "y")] }

/-- Witness for `inventario_cantidad_uno`: in the concrete successful run,
the reservation request for "Widget" with quantity 1 is in the trace. -/
theorem inventario_cantidad_uno_witness :
    Event.llamadaInventario "Widget" 1 ∈ (ejecutar_saga envExito "u1" "Widget" 1).eventos ∧
      ("Widget" = "Widget" ∧ 1 = 1) :=
  ⟨by decide, (inventario_cantidad_uno envExito "u1" "Widget" 1).1 "Widget" 1 (by decide)⟩

/-- A successful retry run contains a truthy attempt within bounds. -/
theorem retry_success_attempt (op : Nat → Option Dict)
    (h : (ejecutar_con_retry op).success = true) :
    ∃ k, 1 ≤ k ∧ k ≤ MAX_RETRIES ∧ truthy (op k) = true := by
  obtain ⟨k, h1, h2, h3, _, _⟩ := ejecutar_con_retry_success op h
  exact ⟨k, h1, h2, h3⟩

/-- **C7.** A transaction identifier is present in the final SagaProgress
only if its step reported Success in this same execution: `compra_id` /
`pago_id` only when the corresponding retried step succeeded (some attempt
in `1..MAX_RETRIES` returned a truthy payload) with exactly that identifier
in its payload, and `reserva_id` only when the single inventory call
returned a truthy payload carrying it. -/
theorem ids_solo_tras_exito (env : Env) (u p : String) (m : Rat) :
    (∀ c, (ejecutar_saga env u p m).progreso.compra_id = some c →
      (ejecutar_con_retry env.compras).success = true ∧
      (∃ k, 1 ≤ k ∧ k ≤ MAX_RETRIES ∧ truthy (env.compras k) = true) ∧
      compraId env = some c) ∧
    (∀ pg, (ejecutar_saga env u p m).progreso.pago_id = some pg →
      (ejecutar_con_retry env.pagos).success = true ∧
      (∃ k, 1 ≤ k ∧ k ≤ MAX_RETRIES ∧ truthy (env.pagos k) = true) ∧
      pagoId env = some pg) ∧
    (∀ ri, (ejecutar_saga env u p m).progreso.reserva_id = some ri →
      truthy env.inventario = true ∧ reservaId env = some ri) := by
  rcases ejecutar_saga_casos env u p m with
    ⟨_, hr⟩ | ⟨_, _, hr⟩ | ⟨_, _, hr⟩ | ⟨_, _, _, hr⟩ | ⟨cid, _, h2, hcid, _, hr⟩ |
    ⟨cid, _, h2, hcid, _, _, hr⟩ | ⟨cid, pid, _, h2, hcid, h3, hpid, _, hr⟩ |
    ⟨cid, pid, _, h2, hcid, h3, hpid, h4, _, hr⟩ |
    ⟨cid, pid, rid, _, h2, hcid, h3, hpid, h4, hrid, hr⟩ <;>
    rw [hr]
  · exact ⟨fun c hc => by simp at hc, fun pg hp => by simp at hp,
      fun ri hri => by simp at hri⟩
  · exact ⟨fun c hc => by simp [errorInterno] at hc,
      fun pg hp => by simp [errorInterno] at hp,
      fun ri hri => by simp [errorInterno] at hri⟩
  · exact ⟨fun c hc => by simp at hc, fun pg hp => by simp at hp,
      fun ri hri => by simp at hri⟩
  · exact ⟨fun c hc => by simp [errorInterno] at hc,
      fun pg hp => by simp [errorInterno] at hp,
      fun ri hri => by simp [errorInterno] at hri⟩
  · refine ⟨fun c hc => ?_, fun pg hp => by simp at hp, fun ri hri => by simp at hri⟩
    simp only [Option.some.injEq] at hc
    subst hc
    exact ⟨h2, retry_success_attempt env.compras h2, hcid⟩
  · refine ⟨fun c hc => ?_, fun pg hp => by simp [errorInterno] at hp,
      fun ri hri => by simp [errorInterno] at hri⟩
    simp only [errorInterno, Option.some.injEq] at hc
    subst hc
    exact ⟨h2, retry_success_attempt env.compras h2, hcid⟩
  · refine ⟨fun c hc => ?_, fun pg hp => ?_, fun ri hri => by simp at hri⟩
    · simp only [Option.some.injEq] at hc
      subst hc
      exact ⟨h2, retry_success_attempt env.compras h2, hcid⟩
    · simp only [Option.some.injEq] at hp
      subst hp
      exact ⟨h3, retry_success_attempt env.pagos h3, hpid⟩
  · refine ⟨fun c hc => ?_, fun pg hp => ?_, fun ri hri => by simp [errorInterno] at hri⟩
    · simp only [errorInterno, Option.some.injEq] at hc
      subst hc
      exact ⟨h2, retry_success_attempt env.compras h2, hcid⟩
    · simp only [errorInterno, Option.some.injEq] at hp
      subst hp
      exact ⟨h3, retry_success_attempt env.pagos h3, hpid⟩
  · refine ⟨fun c hc => ?_, fun pg hp => ?_, fun ri hri => ?_⟩
    · simp only [Option.some.injEq] at hc
      subst hc
      exact ⟨h2, retry_success_attempt env.compras h2, hcid⟩
    · simp only [Option.some.injEq] at hp
      subst hp
      exact ⟨h3, retry_success_attempt env.pagos h3, hpid⟩
    · simp only [Option.some.injEq] at hri
      subst hri
      exact ⟨h4, hrid⟩

/-- Witness for `ids_solo_tras_exito`: in the concrete successful run the
committed `compra_id` is "c1" and the theorem yields the success facts. -/
theorem ids_solo_tras_exito_witness :
    (ejecutar_saga envExito "u1" "Widget" 1).progreso.compra_id = some "c1" ∧
      ((ejecutar_con_retry envExito.compras).success = true ∧
        (∃ k, 1 ≤ k ∧ k ≤ MAX_RETRIES ∧ truthy (envExito.compras k) = true) ∧
        compraId envExito = some "c1") :=
  ⟨by decide, (ids_solo_tras_exito envExito "u1" "Widget" 1).1 "c1" (by decide)⟩

/-- **C1.** When forward progress stops, compensation covers exactly the
steps committed before the failed step, in strict reverse order of forward
completion, and never the failed step or later ones: a validation failure
emits no outbound event at all; a purchase failure compensates nothing; a
payment failure compensates only the purchase; an inventory failure
compensates the payment and then the purchase; and the compensation
executor performs no refund (resp. cancel) call when `pago_id`
(resp. `compra_id`) is absent from SagaProgress. -/
theorem compensacion_exacta_en_orden_inverso (env : Env) (u p : String) (m : Rat)
    (servicios : List String) (prog : Progreso) :
    (truthy env.catalogo = false → (ejecutar_saga env u p m).eventos = []) ∧
    (pasoCatalogoOk env → (ejecutar_con_retry env.compras).success = false →
      (ejecutar_saga env u p m).eventos.filter Event.esCompensacion = []) ∧
    (∀ cid, pasoCatalogoOk env → (ejecutar_con_retry env.compras).success = true →
      compraId env = some cid → (ejecutar_con_retry env.pagos).success = false →
      (ejecutar_saga env u p m).eventos.filter Event.esCompensacion =
        [Event.compensacionCompra cid]) ∧
    (∀ cid pid, pasoCatalogoOk env → (ejecutar_con_retry env.compras).success = true →
      compraId env = some cid → (ejecutar_con_retry env.pagos).success = true →
      pagoId env = some pid → truthy env.inventario = false →
      (ejecutar_saga env u p m).eventos.filter Event.esCompensacion =
        [Event.compensacionPago pid, Event.compensacionCompra cid]) ∧
    (prog.pago_id = none →
      ∀ e ∈ ejecutar_compensaciones env servicios prog, e.esCompensacionPago = false) ∧
    (prog.compra_id = none →
      ∀ e ∈ ejecutar_compensaciones env servicios prog, e.esCompensacionCompra = false) := by
  refine ⟨?_, ?_, ?_, ?_, compensaciones_sin_pago env servicios prog,
    compensaciones_sin_compra env servicios prog⟩
  · intro h
    rw [ejecutar_saga_404 env u p m h]
  · rintro ⟨h1, ⟨n, hn⟩, ⟨pr, hpr⟩⟩ h2
    rw [ejecutar_saga_ok env u p m n pr h1 hn hpr, sagaPaso2_falla env p _ h2]
    rfl
  · rintro cid ⟨h1, ⟨n, hn⟩, ⟨pr, hpr⟩⟩ h2 hcid h3
    rw [ejecutar_saga_ok env u p m n pr h1 hn hpr, sagaPaso2_ok env p _ cid h2 hcid,
      sagaPaso3_falla env p _ cid ⟨some cid, none, none⟩ h3, compensaciones_compras]
    rfl
  · rintro cid pid ⟨h1, ⟨n, hn⟩, ⟨pr, hpr⟩⟩ h2 hcid h3 hpid h4
    rw [ejecutar_saga_ok env u p m n pr h1 hn hpr, sagaPaso2_ok env p _ cid h2 hcid,
      sagaPaso3_ok env p _ cid pid ⟨some cid, none, none⟩ h3 hpid,
      sagaPaso4_falla env p _ cid pid ⟨some cid, some pid, none⟩ h4,
      compensaciones_pagos_compras]
    rfl

/-- Witness for `compensacion_exacta_en_orden_inverso`: the concrete
inventory-failure run compensates the payment and then the purchase. -/
theorem compensacion_exacta_en_orden_inverso_witness :
    (ejecutar_saga envInventarioFalla "u1" "Widget" 1).eventos.filter Event.esCompensacion =
      [Event.compensacionPago "p1", Event.compensacionCompra "c1"] :=
  (compensacion_exacta_en_orden_inverso envInventarioFalla "u1" "Widget" 1 [] {}).2.2.2.1
    "c1" "p1" ⟨by decide, ⟨"Widget", by decide⟩, ⟨"19.99", by decide⟩⟩
    (by decide) (by decide) (by decide) (by decide) (by decide)

/-- All four forward steps succeed, including every subscripted key. -/
def sagaTodoOk (env : Env) : Prop :=
  ∃ cid pid rid, pasoCatalogoOk env ∧ (ejecutar_con_retry env.compras).success = true ∧
    compraId env = some cid ∧ (ejecutar_con_retry env.pagos).success = true ∧
    pagoId env = some pid ∧ truthy env.inventario = true ∧ reservaId env = some rid

/-- The status code of any saga execution is 200, 404, 409 or 500. -/
theorem saga_status_mem (env : Env) (u p : String) (m : Rat) :
    (ejecutar_saga env u p m).status = 200 ∨ (ejecutar_saga env u p m).status = 404 ∨
      (ejecutar_saga env u p m).status = 409 ∨ (ejecutar_saga env u p m).status = 500 := by
  rcases ejecutar_saga_casos env u p m with
    ⟨_, hr⟩ | ⟨_, _, hr⟩ | ⟨_, _, hr⟩ | ⟨_, _, _, hr⟩ | ⟨cid, _, _, _, _, hr⟩ |
    ⟨cid, _, _, _, _, _, hr⟩ | ⟨cid, pid, _, _, _, _, _, _, hr⟩ |
    ⟨cid, pid, _, _, _, _, _, _, _, hr⟩ | ⟨cid, pid, rid, _, _, _, _, _, _, _, hr⟩ <;>
    rw [hr] <;> simp [errorInterno]

/-- Status 404 is returned exactly when the catalog lookup yields a falsy
result. -/
theorem saga_404_iff (env : Env) (u p : String) (m : Rat) :
    (ejecutar_saga env u p m).status = 404 ↔ truthy env.catalogo = false := by
  constructor
  · intro h
    rcases ejecutar_saga_casos env u p m with
      ⟨hc, hr⟩ | ⟨hc, _, hr⟩ | ⟨hc, _, hr⟩ | ⟨hc, _, _, hr⟩ | ⟨cid, hc, _, _, _, hr⟩ |
      ⟨cid, hc, _, _, _, _, hr⟩ | ⟨cid, pid, hc, _, _, _, _, _, hr⟩ |
      ⟨cid, pid, hc, _, _, _, _, _, _, hr⟩ | ⟨cid, pid, rid, hc, _, _, _, _, _, _, hr⟩ <;>
      rw [hr] at h
    · exact hc
    all_goals simp [errorInterno] at h
  · intro h
    rw [ejecutar_saga_404 env u p m h]

/-- Status 200 is returned exactly when all four forward steps succeed. -/
theorem saga_200_iff (env : Env) (u p : String) (m : Rat) :
    (ejecutar_saga env u p m).status = 200 ↔ sagaTodoOk env := by
  constructor
  · intro h
    rcases ejecutar_saga_casos env u p m with
      ⟨_, hr⟩ | ⟨_, _, hr⟩ | ⟨_, _, hr⟩ | ⟨_, _, _, hr⟩ | ⟨cid, _, _, _, _, hr⟩ |
      ⟨cid, _, _, _, _, _, hr⟩ | ⟨cid, pid, _, _, _, _, _, _, hr⟩ |
      ⟨cid, pid, _, _, _, _, _, _, _, hr⟩ |
      ⟨cid, pid, rid, hcat, h2, hcid, h3, hpid, h4, hrid, hr⟩ <;>
      rw [hr] at h <;>
      first
        | (exact ⟨cid, pid, rid, hcat, h2, hcid, h3, hpid, h4, hrid⟩)
        | (simp [errorInterno] at h)
  · rintro ⟨cid, pid, rid, ⟨h1, ⟨n, hn⟩, ⟨pr, hpr⟩⟩, h2, hcid, h3, hpid, h4, hrid⟩
    rw [ejecutar_saga_ok env u p m n pr h1 hn hpr, sagaPaso2_ok env p _ cid h2 hcid,
      sagaPaso3_ok env p _ cid pid ⟨some cid, none, none⟩ h3 hpid,
      sagaPaso4_ok env p _ cid pid rid ⟨some cid, some pid, none⟩ h4 hrid]

/-- **C3.** The returned status is always one of {200, 404, 409, 500};
404 exactly when the catalog finds no product — and then no outbound call
(in particular no compensation) is made; 200 exactly when all four steps
succeed, and then the outcome has `success = true` with data carrying the
product information and the three transaction identifiers; and a failure of
the purchase, payment or inventory step yields 409. -/
theorem status_codes_caracterizados (env : Env) (u p : String) (m : Rat) :
    ((ejecutar_saga env u p m).status = 200 ∨ (ejecutar_saga env u p m).status = 404 ∨
      (ejecutar_saga env u p m).status = 409 ∨ (ejecutar_saga env u p m).status = 500) ∧
    ((ejecutar_saga env u p m).status = 404 ↔ truthy env.catalogo = false) ∧
    ((ejecutar_saga env u p m).status = 404 → (ejecutar_saga env u p m).eventos = []) ∧
    ((ejecutar_saga env u p m).status = 200 ↔ sagaTodoOk env) ∧
    ((ejecutar_saga env u p m).status = 200 →
      (ejecutar_saga env u p m).respuesta.success = true ∧
      ∃ cid pid rid, (ejecutar_saga env u p m).respuesta.datos =
        some ⟨env.catalogo.getD [], cid, pid, rid⟩) ∧
    (pasoCatalogoOk env → (ejecutar_con_retry env.compras).success = false →
      (ejecutar_saga env u p m).status = 409) ∧
    (∀ cid, pasoCatalogoOk env → (ejecutar_con_retry env.compras).success = true →
      compraId env = some cid → (ejecutar_con_retry env.pagos).success = false →
      (ejecutar_saga env u p m).status = 409) ∧
    (∀ cid pid, pasoCatalogoOk env → (ejecutar_con_retry env.compras).success = true →
      compraId env = some cid → (ejecutar_con_retry env.pagos).success = true →
      pagoId env = some pid → truthy env.inventario = false →
      (ejecutar_saga env u p m).status = 409) := by
  refine ⟨saga_status_mem env u p m, saga_404_iff env u p m, ?_, saga_200_iff env u p m,
    ?_, ?_, ?_, ?_⟩
  · intro h
    rw [ejecutar_saga_404 env u p m ((saga_404_iff env u p m).mp h)]
  · intro h
    obtain ⟨cid, pid, rid, ⟨h1, ⟨n, hn⟩, ⟨pr, hpr⟩⟩, h2, hcid, h3, hpid, h4, hrid⟩ :=
      (saga_200_iff env u p m).mp h
    rw [ejecutar_saga_ok env u p m n pr h1 hn hpr, sagaPaso2_ok env p _ cid h2 hcid,
      sagaPaso3_ok env p _ cid pid ⟨some cid, none, none⟩ h3 hpid,
      sagaPaso4_ok env p _ cid pid rid ⟨some cid, some pid, none⟩ h4 hrid]
    exact ⟨rfl, cid, pid, rid, rfl⟩
  · rintro ⟨h1, ⟨n, hn⟩, ⟨pr, hpr⟩⟩ h2
    rw [ejecutar_saga_ok env u p m n pr h1 hn hpr, sagaPaso2_falla env p _ h2]
  · rintro cid ⟨h1, ⟨n, hn⟩, ⟨pr, hpr⟩⟩ h2 hcid h3
    rw [ejecutar_saga_ok env u p m n pr h1 hn hpr, sagaPaso2_ok env p _ cid h2 hcid,
      sagaPaso3_falla env p _ cid ⟨some cid, none, none⟩ h3]
  · rintro cid pid ⟨h1, ⟨n, hn⟩, ⟨pr, hpr⟩⟩ h2 hcid h3 hpid h4
    rw [ejecutar_saga_ok env u p m n pr h1 hn hpr, sagaPaso2_ok env p _ cid h2 hcid,
      sagaPaso3_ok env p _ cid pid ⟨some cid, none, none⟩ h3 hpid,
      sagaPaso4_falla env p _ cid pid ⟨some cid, some pid, none⟩ h4]

/-- Witness for `status_codes_caracterizados`: with the product absent from
the catalog, status 404 holds and the trace is empty (no compensation). -/
theorem status_codes_caracterizados_witness :
    (ejecutar_saga envSinProducto "u1" "Widget" 1).eventos = [] :=
  (status_codes_caracterizados envSinProducto "u1" "Widget" 1).2.2.1 (by decide)

/-- **C4.** `ejecutar_saga` is total and never lets a fault escape: every
execution returns a structured response with a status in {200, 404, 409,
500}, and each unexpected fault — a missing key in a step's 200 payload,
raised as `KeyError` and caught by the outer `try/except` — yields the
fixed internal-error response with status 500 after running compensations
`['pagos', 'compras']` against the progress committed so far, the refund
and the cancel each skipped when its identifier was never committed. -/
theorem fallos_inesperados_capturados (env : Env) (u p : String) (m : Rat) :
    ((ejecutar_saga env u p m).status = 200 ∨ (ejecutar_saga env u p m).status = 404 ∨
      (ejecutar_saga env u p m).status = 409 ∨ (ejecutar_saga env u p m).status = 500) ∧
    (truthy env.catalogo = true →
      ((env.catalogo.getD []).lookup "nombre" = none ∨
        (env.catalogo.getD []).lookup "precio" = none) →
      ejecutar_saga env u p m =
        ⟨{ success := false, error := some "Error interno del servidor" }, 500, [], {}⟩) ∧
    (pasoCatalogoOk env → (ejecutar_con_retry env.compras).success = true →
      compraId env = none →
      ejecutar_saga env u p m =
        ⟨{ success := false, error := some "Error interno del servidor" }, 500, [], {}⟩) ∧
    (∀ cid, pasoCatalogoOk env → (ejecutar_con_retry env.compras).success = true →
      compraId env = some cid → (ejecutar_con_retry env.pagos).success = true →
      pagoId env = none →
      ejecutar_saga env u p m =
        ⟨{ success := false, error := some "Error interno del servidor" }, 500,
          [Event.compensacionCompra cid], ⟨some cid, none, none⟩⟩) ∧
    (∀ cid pid, pasoCatalogoOk env → (ejecutar_con_retry env.compras).success = true →
      compraId env = some cid → (ejecutar_con_retry env.pagos).success = true →
      pagoId env = some pid → truthy env.inventario = true → reservaId env = none →
      ejecutar_saga env u p m =
        ⟨{ success := false, error := some "Error interno del servidor" }, 500,
          [Event.llamadaInventario p 1, Event.compensacionPago pid,
            Event.compensacionCompra cid], ⟨some cid, some pid, none⟩⟩) := by
  refine ⟨saga_status_mem env u p m, ?_, ?_, ?_, ?_⟩
  · intro h1 hk
    rw [ejecutar_saga_fallaClave env u p m h1 hk]
    simp [errorInterno, compensaciones_pagos_compras]
  · rintro ⟨h1, ⟨n, hn⟩, ⟨pr, hpr⟩⟩ h2 hcid
    rw [ejecutar_saga_ok env u p m n pr h1 hn hpr, sagaPaso2_fallaClave env p _ h2 hcid]
    simp [errorInterno, compensaciones_pagos_compras]
  · rintro cid ⟨h1, ⟨n, hn⟩, ⟨pr, hpr⟩⟩ h2 hcid h3 hpid
    rw [ejecutar_saga_ok env u p m n pr h1 hn hpr, sagaPaso2_ok env p _ cid h2 hcid,
      sagaPaso3_fallaClave env p _ cid ⟨some cid, none, none⟩ h3 hpid]
    simp [errorInterno, compensaciones_pagos_compras]
  · rintro cid pid ⟨h1, ⟨n, hn⟩, ⟨pr, hpr⟩⟩ h2 hcid h3 hpid h4 hrid
    rw [ejecutar_saga_ok env u p m n pr h1 hn hpr, sagaPaso2_ok env p _ cid h2 hcid,
      sagaPaso3_ok env p _ cid pid ⟨some cid, none, none⟩ h3 hpid,
      sagaPaso4_fallaClave env p _ cid pid ⟨some cid, some pid, none⟩ h4 hrid]
    simp [errorInterno, compensaciones_pagos_compras]

/-- Witness for `fallos_inesperados_capturados`: a truthy inventory
response lacking `reserva_id` produces the 500 fault result with both
compensations. -/
theorem fallos_inesperados_capturados_witness :
    ejecutar_saga envReservaSinClave "u1" "Widget" 1 =
      ⟨{ success := false, error := some "Error interno del servidor" }, 500,
        [Event.llamadaInventario "Widget" 1, Event.compensacionPago "p1",
          Event.compensacionCompra "c1"], ⟨some "c1", some "p1", none⟩⟩ :=
  (fallos_inesperados_capturados envReservaSinClave "u1" "Widget" 1).2.2.2.2
    "c1" "p1" ⟨by decide, ⟨"Widget", by decide⟩, ⟨"19.99", by decide⟩⟩
    (by decide) (by decide) (by decide) (by decide) (by decide) (by decide)

/-- **C8 counterexample.** SagaProgress is *not* an execution-owned value
that disappears with the execution: it lives in the instance attribute
`self.transacciones_exitosas` of the long-lived orchestrator, and after a
successful invocation returns, the attribute still holds that execution's
committed identifiers instead of being discarded — so it is stored as
shared mutable state on the orchestrator instance, which concurrent
executions of the same instance would share. -/
theorem progreso_persiste_en_instancia :
    (ejecutar_saga_instancia ⟨none, none, none⟩ envExito "u1" "Widget" 1).2 =
      ⟨some "c1", some "p1", some "r1"⟩ ∧
    (ejecutar_saga_instancia ⟨none, none, none⟩ envExito "u1" "Widget" 1).2 ≠
      ⟨none, none, none⟩ := by
  constructor
  · decide
  · decide

/-- **C8 (amended).** `transacciones_exitosas` is reset to the empty mapping
at the start of every invocation, so the result and final state are
independent of whatever the long-lived instance previously held — each
sequential execution starts fresh; but the mapping is stored on the
instance, where it survives the execution, rather than being an explicitly
threaded, discarded value. -/
theorem progreso_reiniciado_por_invocacion (prior prior' : Progreso) (env : Env)
    (u p : String) (m : Rat) :
    ejecutar_saga_instancia prior env u p m = ejecutar_saga_instancia prior' env u p m ∧
    (ejecutar_saga_instancia prior env u p m).2 = (ejecutar_saga env u p m).progreso :=
  ⟨rfl, rfl⟩

end SagaSpec
